import Mathlib

/-!
Shallow embedding of the SparkMinda dashboard's chart-annotation and
threshold-store core (the PerformanceChart domain/extrema computations,
the processedChartData projection, and the per-parameter threshold state
with its get/update dispatch), together with proofs of the specified
properties.  Numeric sensor values are modelled as rationals; dynamic
values that may be absent, null, booleans, numbers or strings are
modelled by the inductive type JVal.
-/

namespace SparkMinda

/-- A dynamically typed value, as flows through the untyped reading
records: undefined, null, a boolean, a number, or a string. -/
inductive JVal where
  | undef : JVal
  | jnull : JVal
  | jbool : Bool → JVal
  | jnum : ℚ → JVal
  | jstr : String → JVal
deriving DecidableEq

/-- Truthiness of a dynamic value (undefined, null, false, 0 and the
empty string are falsy; everything else is truthy). -/
def truthy : JVal → Bool
  | .undef => false
  | .jnull => false
  | .jbool b => b
  | .jnum q => decide (q ≠ 0)
  | .jstr s => decide (s ≠ "")

/-- Short-circuit disjunction on dynamic values: returns the first
operand when it is truthy, otherwise the second. -/
def jsOr (a b : JVal) : JVal := if truthy a then a else b

/-- Extraction of a numeric payload: models a typeof-number test
followed by use of the value as a number. -/
def toNum : JVal → Option ℚ
  | .jnum q => some q
  | _ => none

/-- One raw chart sample as delivered by the backend: a time label, a
mapping from parameter key to dynamic value, and a dynamic violation
flag. -/
structure Reading where
  time : String
  values : String → JVal
  is_violation : JVal

/-- One processed chart point: time label, the selected parameter's
value, and the violation flag. -/
structure AnnotatedPoint where
  time : String
  actual : JVal
  is_violation : JVal
deriving DecidableEq

/-- The projection of the raw chart data onto the selected parameter:
empty input yields an empty output, otherwise each point is mapped to
its time, its value under the selected parameter key, and its violation
flag normalised through a short-circuit or with false. -/
def processedChartData (chartData : List Reading) (selectedParameter : String) :
    List AnnotatedPoint :=
  if chartData.length = 0 then []
  else chartData.map fun point =>
    { time := point.time
      actual := point.values selectedParameter
      is_violation := jsOr point.is_violation (JVal.jbool false) }

/-- The older variant of the projection: spreads the point and
overrides time and actual, leaving the violation flag untouched. -/
def processedChartDataApp (chartData : List Reading) (selectedParameter : String) :
    List AnnotatedPoint :=
  chartData.map fun point =>
    { time := point.time
      actual := point.values selectedParameter
      is_violation := point.is_violation }

/-- Minimum of a spread list of numbers: none models the empty spread
(where the source would produce positive infinity). -/
def listMin : List ℚ → Option ℚ
  | [] => none
  | x :: xs => some (xs.foldl min x)

/-- Maximum of a spread list of numbers: none models the empty spread
(where the source would produce negative infinity). -/
def listMax : List ℚ → Option ℚ
  | [] => none
  | x :: xs => some (xs.foldl max x)

/-- The defined numeric values of a point list, in order: map to the
actual field, then keep only numbers. -/
def definedVals (data : List AnnotatedPoint) : List ℚ :=
  (data.map fun p => p.actual).filterMap toNum

/-- The value-axis domain: collect the numeric actual values via a
flat map of singletons and a typeof-number filter; an empty collection
yields the fallback domain, otherwise pad the min/max by ten percent of
the range (or the constant 20 when the range is zero) and round
outward. -/
def yDomain (data : List AnnotatedPoint) : Int × Int :=
  let allValues := (data.flatMap fun p => [p.actual]).filterMap toNum
  match allValues with
  | [] => (0, 100)
  | x :: xs =>
    let minValue := xs.foldl min x
    let maxValue := xs.foldl max x
    let range := maxValue - minValue
    let padding := if 0 < range then range * (1 / 10) else 20
    (⌊minValue - padding⌋, ⌈maxValue + padding⌉)

/-- The minimum over the defined actual values of the data. -/
def chartMinValue (data : List AnnotatedPoint) : Option ℚ :=
  listMin (definedVals data)

/-- The maximum over the defined actual values of the data. -/
def chartMaxValue (data : List AnnotatedPoint) : Option ℚ :=
  listMax (definedVals data)

/-- The first point whose actual value is strictly equal to the chart
minimum; when there is no defined value the minimum is the empty-spread
infinity, which no point's actual equals, so the search fails. -/
def minPoint (data : List AnnotatedPoint) : Option AnnotatedPoint :=
  match chartMinValue data with
  | none => none
  | some m => data.find? fun p => p.actual == JVal.jnum m

/-- The first point whose actual value is strictly equal to the chart
maximum; as for the minimum, an all-undefined series yields none. -/
def maxPoint (data : List AnnotatedPoint) : Option AnnotatedPoint :=
  match chartMaxValue data with
  | none => none
  | some m => data.find? fun p => p.actual == JVal.jnum m

/-- The scatter data for the min/max markers: the two-element array of
the min point and the max point, with undefined entries filtered out by
truthiness. -/
def visibleMinMaxPoints (data : List AnnotatedPoint) : List AnnotatedPoint :=
  [minPoint data, maxPoint data].filterMap id

/-! ### Threshold store -/

/-- The dashboard state slots relevant to the threshold store: the
currently selected parameter and the ten per-parameter bound slots
(upper and lower for each of the five parameters). -/
structure DashState where
  selectedParameter : String
  metalTempThreshold : Int
  metalTempLowerThreshold : Int
  solidificationTimeThreshold : Int
  solidificationTimeLowerThreshold : Int
  tiltingAngleThreshold : Int
  tiltingAngleLowerThreshold : Int
  tiltingSpeedThreshold : Int
  tiltingSpeedLowerThreshold : Int
  topDieTempThreshold : Int
  topDieTempLowerThreshold : Int
deriving DecidableEq

/-- The initial dashboard state, with the default selected parameter
and the default engineering bounds. -/
def initialState : DashState where
  selectedParameter := "metal_temperature"
  metalTempThreshold := 730
  metalTempLowerThreshold := 710
  solidificationTimeThreshold := 180
  solidificationTimeLowerThreshold := 180
  tiltingAngleThreshold := 90
  tiltingAngleLowerThreshold := 90
  tiltingSpeedThreshold := 8
  tiltingSpeedLowerThreshold := 6
  topDieTempThreshold := 380
  topDieTempLowerThreshold := 300

/-- A two-sided bound pair as returned to the chart; either side may be
undefined. -/
structure ThresholdPair where
  upper : Option Int
  lower : Option Int
deriving DecidableEq

/-- The five recognised parameter identifiers. -/
def recognizedParameters : List String :=
  ["metal_temperature", "solidification_time", "tilting_angle",
   "tilting_speed", "top_die_temperature"]

/-- The bound pair for the currently selected parameter, dispatched by
a switch on the identifier; the default branch returns a pair with both
sides undefined. -/
def getCurrentThreshold (st : DashState) : ThresholdPair :=
  match st.selectedParameter with
  | "metal_temperature" =>
      { upper := some st.metalTempThreshold, lower := some st.metalTempLowerThreshold }
  | "solidification_time" =>
      { upper := some st.solidificationTimeThreshold,
        lower := some st.solidificationTimeLowerThreshold }
  | "tilting_angle" =>
      { upper := some st.tiltingAngleThreshold, lower := some st.tiltingAngleLowerThreshold }
  | "tilting_speed" =>
      { upper := some st.tiltingSpeedThreshold, lower := some st.tiltingSpeedLowerThreshold }
  | "top_die_temperature" =>
      { upper := some st.topDieTempThreshold, lower := some st.topDieTempLowerThreshold }
  | _ => { upper := none, lower := none }

/-- Selecting a parameter in the dropdown: only the selection slot
changes. -/
def setSelectedParameter (st : DashState) (p : String) : DashState :=
  { st with selectedParameter := p }

/-- Whitespace as skipped by the integer parser. -/
def isSpaceChar (c : Char) : Bool :=
  c = ' ' || c = '\t' || c = '\n' || c = '\r' || c = '\x0b' || c = '\x0c'

/-- Radix-10 integer parsing of external input, as the source performs
it: skip leading whitespace, read an optional sign, then take the
longest prefix of decimal digits; none models a not-a-number result
when no digit is found. -/
def parseIntJS (s : String) : Option Int :=
  let cs := s.toList.dropWhile isSpaceChar
  let signAndRest : Int × List Char :=
    match cs with
    | '-' :: rest => (-1, rest)
    | '+' :: rest => (1, rest)
    | _ => (1, cs)
  let digs := signAndRest.2.takeWhile Char.isDigit
  if digs.isEmpty then none
  else some (signAndRest.1 *
    (digs.foldl (fun acc c => acc * 10 + (c.toNat - '0'.toNat)) (0 : Nat) : Nat))

/-- The threshold update handler: parse the input as an integer; on
parse failure do nothing; otherwise dispatch on the selected parameter
and overwrite the upper slot when the side is the upper one, the lower
slot otherwise; an unrecognised selected parameter falls through to the
default branch and changes nothing. -/
def updateThreshold (st : DashState) (type : String) (value : String) : DashState :=
  match parseIntJS value with
  | none => st
  | some numValue =>
    match st.selectedParameter with
    | "metal_temperature" =>
        if type = "upper" then { st with metalTempThreshold := numValue }
        else { st with metalTempLowerThreshold := numValue }
    | "solidification_time" =>
        if type = "upper" then { st with solidificationTimeThreshold := numValue }
        else { st with solidificationTimeLowerThreshold := numValue }
    | "tilting_angle" =>
        if type = "upper" then { st with tiltingAngleThreshold := numValue }
        else { st with tiltingAngleLowerThreshold := numValue }
    | "tilting_speed" =>
        if type = "upper" then { st with tiltingSpeedThreshold := numValue }
        else { st with tiltingSpeedLowerThreshold := numValue }
    | "top_die_temperature" =>
        if type = "upper" then { st with topDieTempThreshold := numValue }
        else { st with topDieTempLowerThreshold := numValue }
    | _ => st

/-! ### Helper lemmas -/

lemma foldl_min_le (l : List ℚ) : ∀ x : ℚ, ∀ y ∈ x :: l, l.foldl min x ≤ y := by
  induction l with
  | nil =>
    intro x y hy
    rcases List.mem_singleton.mp hy with rfl
    exact le_refl _
  | cons a l ih =>
    intro x y hy
    simp only [List.foldl_cons]
    rcases List.mem_cons.mp hy with rfl | hy'
    · exact le_trans (ih (min y a) _ (List.mem_cons_self _ _)) (min_le_left _ _)
    · rcases List.mem_cons.mp hy' with rfl | hy''
      · exact le_trans (ih (min x y) _ (List.mem_cons_self _ _)) (min_le_right _ _)
      · exact ih (min x a) y (List.mem_cons_of_mem _ hy'')

lemma le_foldl_max (l : List ℚ) : ∀ x : ℚ, ∀ y ∈ x :: l, y ≤ l.foldl max x := by
  induction l with
  | nil =>
    intro x y hy
    rcases List.mem_singleton.mp hy with rfl
    exact le_refl _
  | cons a l ih =>
    intro x y hy
    simp only [List.foldl_cons]
    rcases List.mem_cons.mp hy with rfl | hy'
    · exact le_trans (le_max_left _ _) (ih (max y a) _ (List.mem_cons_self _ _))
    · rcases List.mem_cons.mp hy' with rfl | hy''
      · exact le_trans (le_max_right _ _) (ih (max x y) _ (List.mem_cons_self _ _))
      · exact ih (max x a) y (List.mem_cons_of_mem _ hy'')

lemma foldl_min_mem (l : List ℚ) : ∀ x : ℚ, l.foldl min x ∈ x :: l := by
  induction l with
  | nil => intro x; simp
  | cons a l ih =>
    intro x
    simp only [List.foldl_cons]
    rcases List.mem_cons.mp (ih (min x a)) with h1 | h1
    · rcases min_choice x a with h2 | h2 <;> rw [h1, h2]
      · exact List.mem_cons_self _ _
      · exact List.mem_cons_of_mem _ (List.mem_cons_self _ _)
    · exact List.mem_cons_of_mem _ (List.mem_cons_of_mem _ h1)

lemma foldl_max_mem (l : List ℚ) : ∀ x : ℚ, l.foldl max x ∈ x :: l := by
  induction l with
  | nil => intro x; simp
  | cons a l ih =>
    intro x
    simp only [List.foldl_cons]
    rcases List.mem_cons.mp (ih (max x a)) with h1 | h1
    · rcases max_choice x a with h2 | h2 <;> rw [h1, h2]
      · exact List.mem_cons_self _ _
      · exact List.mem_cons_of_mem _ (List.mem_cons_self _ _)
    · exact List.mem_cons_of_mem _ (List.mem_cons_of_mem _ h1)

lemma foldr_min_min (x a : ℚ) (l : List ℚ) :
    l.foldr min (min x a) = min a (l.foldr min x) := by
  induction l with
  | nil => simp [min_comm]
  | cons b l ih => simp only [List.foldr_cons, ih, min_left_comm]

lemma foldl_min_eq_foldr_min (l : List ℚ) : ∀ x : ℚ, l.foldl min x = l.foldr min x := by
  induction l with
  | nil => intro x; rfl
  | cons a l ih =>
    intro x
    simp only [List.foldl_cons, List.foldr_cons, ih (min x a), foldr_min_min]

lemma foldr_max_max (x a : ℚ) (l : List ℚ) :
    l.foldr max (max x a) = max a (l.foldr max x) := by
  induction l with
  | nil => simp [max_comm]
  | cons b l ih => simp only [List.foldr_cons, ih, max_left_comm]

lemma foldl_max_eq_foldr_max (l : List ℚ) : ∀ x : ℚ, l.foldl max x = l.foldr max x := by
  induction l with
  | nil => intro x; rfl
  | cons a l ih =>
    intro x
    simp only [List.foldl_cons, List.foldr_cons, ih (max x a), foldr_max_max]

lemma toNum_eq_some {jv : JVal} {q : ℚ} : toNum jv = some q ↔ jv = JVal.jnum q := by
  cases jv <;> simp [toNum]

lemma mem_definedVals {data : List AnnotatedPoint} {p : AnnotatedPoint} {v : ℚ}
    (hp : p ∈ data) (hv : p.actual = JVal.jnum v) : v ∈ definedVals data := by
  refine List.mem_filterMap.mpr ⟨p.actual, List.mem_map_of_mem _ hp, ?_⟩
  rw [hv]; rfl

lemma definedVals_mem {data : List AnnotatedPoint} {v : ℚ}
    (hv : v ∈ definedVals data) : ∃ p ∈ data, p.actual = JVal.jnum v := by
  rcases List.mem_filterMap.mp hv with ⟨jv, hjv, hto⟩
  rcases List.mem_map.mp hjv with ⟨p, hp, rfl⟩
  exact ⟨p, hp, toNum_eq_some.mp hto⟩

lemma allValues_eq (data : List AnnotatedPoint) :
    (data.flatMap fun p => [p.actual]).filterMap toNum = definedVals data := by
  have h : (data.flatMap fun p => [p.actual]) = data.map fun p => p.actual := by
    induction data with
    | nil => rfl
    | cons p l ih => simp only [List.flatMap_cons, List.map_cons, ih]; rfl
  rw [h]; rfl

lemma yDomain_definedVals (data : List AnnotatedPoint) :
    yDomain data =
      match definedVals data with
      | [] => (0, 100)
      | x :: xs =>
        let minValue := xs.foldl min x
        let maxValue := xs.foldl max x
        let range := maxValue - minValue
        let padding := if 0 < range then range * (1 / 10) else 20
        (⌊minValue - padding⌋, ⌈maxValue + padding⌉) := by
  unfold yDomain
  rw [allValues_eq]

lemma listMin_spec {l : List ℚ} {m : ℚ} (h : listMin l = some m) :
    m ∈ l ∧ ∀ y ∈ l, m ≤ y := by
  cases l with
  | nil => simp [listMin] at h
  | cons x xs =>
    simp only [listMin, Option.some.injEq] at h
    subst h
    exact ⟨foldl_min_mem xs x, fun y hy => foldl_min_le xs x y hy⟩

lemma listMax_spec {l : List ℚ} {m : ℚ} (h : listMax l = some m) :
    m ∈ l ∧ ∀ y ∈ l, y ≤ m := by
  cases l with
  | nil => simp [listMax] at h
  | cons x xs =>
    simp only [listMax, Option.some.injEq] at h
    subst h
    exact ⟨foldl_max_mem xs x, fun y hy => le_foldl_max xs x y hy⟩

lemma listMin_eq_none {l : List ℚ} : listMin l = none ↔ l = [] := by
  cases l <;> simp [listMin]

lemma listMax_eq_none {l : List ℚ} : listMax l = none ↔ l = [] := by
  cases l <;> simp [listMax]

lemma listMin_all_eq {l : List ℚ} {v : ℚ} (hne : l ≠ [])
    (hall : ∀ y ∈ l, y = v) : listMin l = some v := by
  cases l with
  | nil => exact absurd rfl hne
  | cons x xs =>
    simp only [listMin, Option.some.injEq]
    exact hall _ (foldl_min_mem xs x)

lemma listMax_all_eq {l : List ℚ} {v : ℚ} (hne : l ≠ [])
    (hall : ∀ y ∈ l, y = v) : listMax l = some v := by
  cases l with
  | nil => exact absurd rfl hne
  | cons x xs =>
    simp only [listMax, Option.some.injEq]
    exact hall _ (foldl_max_mem xs x)

lemma definedVals_eq_filterMap (points : List AnnotatedPoint) :
    definedVals points = points.filterMap fun p => toNum p.actual := by
  unfold definedVals
  rw [List.filterMap_map]
  rfl

/-! ### Reference definition of the domain, from the specification -/

/-- The reference domain operation, written from the specification's
words: collect the defined numeric values; with none of them the result
is the fixed fallback pair; otherwise take the minimum and maximum of
the defined values, pad by a tenth of the range (or by the constant 20
when the range is zero) and round the lower bound down and the upper
bound up. -/
def domainRef (points : List AnnotatedPoint) : Int × Int :=
  let defined := points.filterMap fun p => toNum p.actual
  match defined with
  | [] => (0, 100)
  | v :: vs =>
    let minValue := vs.foldr min v
    let maxValue := vs.foldr max v
    let range := maxValue - minValue
    let padding := if 0 < range then range / 10 else 20
    (⌊minValue - padding⌋, ⌈maxValue + padding⌉)

/-! ### Concrete data used by witnesses and counterexamples -/

/-- The first point of the end-to-end scenario with values 705, 715,
725. -/
def pointA0 : AnnotatedPoint :=
  { time := "t0", actual := JVal.jnum 705, is_violation := JVal.jbool true }

/-- The end-to-end scenario series with values 705, 715, 725. -/
def scenarioA : List AnnotatedPoint :=
  [ pointA0,
    { time := "t1", actual := JVal.jnum 715, is_violation := JVal.jbool false },
    { time := "t2", actual := JVal.jnum 725, is_violation := JVal.jbool false } ]

/-! ### Claim theorems: domain -/

/-- C1: for every ordered sequence of annotated points, the chart's
domain operation equals the reference definition: the fixed fallback
pair when no defined numeric value exists, and otherwise the pair of
the rounded-down padded minimum and the rounded-up padded maximum, the
padding being a tenth of the range when the range is positive and the
constant 20 otherwise. -/
theorem yDomain_eq_domainRef (data : List AnnotatedPoint) :
    yDomain data = domainRef data := by
  rw [yDomain_definedVals]
  unfold domainRef
  rw [← definedVals_eq_filterMap]
  cases h : definedVals data with
  | nil => rfl
  | cons x xs =>
    dsimp only
    rw [foldl_min_eq_foldr_min, foldl_max_eq_foldr_max, mul_one_div]

/-- C2: for every sequence with at least one defined numeric value, the
computed domain's lower bound is at most every defined value and its
upper bound is at least every defined value, so no data point lies
outside the rendered domain. -/
theorem yDomain_no_clip (data : List AnnotatedPoint) (p : AnnotatedPoint) (v : ℚ)
    (hp : p ∈ data) (hv : p.actual = JVal.jnum v) :
    (((yDomain data).1 : ℚ) ≤ v) ∧ (v ≤ ((yDomain data).2 : ℚ)) := by
  have hvm : v ∈ definedVals data := mem_definedVals hp hv
  rw [yDomain_definedVals]
  cases h : definedVals data with
  | nil => rw [h] at hvm; simp at hvm
  | cons x xs =>
    rw [h] at hvm
    dsimp only
    have h1 : xs.foldl min x ≤ v := foldl_min_le xs x v hvm
    have h2 : v ≤ xs.foldl max x := le_foldl_max xs x v hvm
    have hpadnn :
        0 ≤ if 0 < xs.foldl max x - xs.foldl min x
            then (xs.foldl max x - xs.foldl min x) * (1 / 10) else 20 := by
      split
      · linarith
      · norm_num
    constructor
    · refine le_trans (Int.floor_le _) ?_
      linarith
    · refine le_trans ?_ (Int.le_ceil _)
      linarith

/-- Witness for C2 at a concrete series: the first scenario point with
value 705 is inside the computed domain. -/
theorem yDomain_no_clip_witness :
    pointA0 ∈ scenarioA ∧ pointA0.actual = JVal.jnum 705 ∧
      ((((yDomain scenarioA).1 : ℚ) ≤ 705) ∧ (705 ≤ ((yDomain scenarioA).2 : ℚ))) :=
  ⟨List.mem_cons_self _ _, rfl,
    yDomain_no_clip scenarioA pointA0 705 (List.mem_cons_self _ _) rfl⟩

/-! ### Claim theorems: extrema -/

lemma find?_actual_first {data : List AnnotatedPoint} {m : ℚ}
    (hm : m ∈ definedVals data) :
    ∃ p as bs, (data.find? fun q => q.actual == JVal.jnum m) = some p ∧
      data = as ++ p :: bs ∧ p.actual = JVal.jnum m ∧
      ∀ q ∈ as, q.actual ≠ JVal.jnum m := by
  rcases definedVals_mem hm with ⟨p', hp', hv'⟩
  have hsome : (data.find? fun q => q.actual == JVal.jnum m).isSome := by
    rw [List.find?_isSome]
    exact ⟨p', hp', by rw [hv']; exact beq_self_eq_true _⟩
  rcases Option.isSome_iff_exists.mp hsome with ⟨p, hfind⟩
  rcases List.find?_eq_some.mp hfind with ⟨hpred, as, bs, hsplit, hprev⟩
  refine ⟨p, as, bs, hfind, hsplit, beq_iff_eq.mp hpred, fun q hq => ?_⟩
  have := hprev q hq
  simpa using this

/-- C3: the extrema operation resolves the minimum role to the first
point in sequence order whose value equals the minimum of the defined
values and the maximum role to the first point whose value equals the
maximum (ties broken by first occurrence; undefined values excluded
from the comparison), and it yields the empty list rather than failing
when the series has no defined value. -/
theorem visibleMinMaxPoints_spec (data : List AnnotatedPoint) :
    (chartMinValue data = none → visibleMinMaxPoints data = []) ∧
    (∀ m, chartMinValue data = some m →
      (∀ v ∈ definedVals data, m ≤ v) ∧
      ∃ p as bs, minPoint data = some p ∧ data = as ++ p :: bs ∧
        p.actual = JVal.jnum m ∧ ∀ q ∈ as, q.actual ≠ JVal.jnum m) ∧
    (∀ m, chartMaxValue data = some m →
      (∀ v ∈ definedVals data, v ≤ m) ∧
      ∃ p as bs, maxPoint data = some p ∧ data = as ++ p :: bs ∧
        p.actual = JVal.jnum m ∧ ∀ q ∈ as, q.actual ≠ JVal.jnum m) := by
  refine ⟨?_, ?_, ?_⟩
  · intro hmin
    have hnil : definedVals data = [] := listMin_eq_none.mp hmin
    have hmax : chartMaxValue data = none := listMax_eq_none.mpr hnil
    simp [visibleMinMaxPoints, minPoint, maxPoint, hmin, hmax]
  · intro m hm
    obtain ⟨hmem, hle⟩ := listMin_spec hm
    refine ⟨hle, ?_⟩
    rcases find?_actual_first hmem with ⟨p, as, bs, hfind, hsplit, hval, hprev⟩
    exact ⟨p, as, bs, by rw [minPoint, hm]; exact hfind, hsplit, hval, hprev⟩
  · intro m hm
    obtain ⟨hmem, hge⟩ := listMax_spec hm
    refine ⟨hge, ?_⟩
    rcases find?_actual_first hmem with ⟨p, as, bs, hfind, hsplit, hval, hprev⟩
    exact ⟨p, as, bs, by rw [maxPoint, hm]; exact hfind, hsplit, hval, hprev⟩

/-- Witness for C3 at the concrete scenario series: the minimum of the
defined values is 705, it bounds the defined value 725 from below, and
the minimum role resolves to the first point. -/
theorem visibleMinMaxPoints_spec_witness :
    chartMinValue scenarioA = some 705 ∧ (705 : ℚ) ≤ 725 ∧
      minPoint scenarioA = some pointA0 := by
  have h := (visibleMinMaxPoints_spec scenarioA).2.1 705 (by decide)
  exact ⟨by decide, h.1 725 (by decide), by decide⟩

/-- The first point of the flat scenario series (all values 50). -/
def flatPoint : AnnotatedPoint :=
  { time := "t0", actual := JVal.jnum 50, is_violation := JVal.jbool false }

/-- The flat scenario series: three readings all of value 50. -/
def flatSeries : List AnnotatedPoint :=
  [ flatPoint,
    { time := "t1", actual := JVal.jnum 50, is_violation := JVal.jbool false },
    { time := "t2", actual := JVal.jnum 50, is_violation := JVal.jbool false } ]

/-- C4 counterexample: on the flat series of three readings of value
50 the extrema operation does not return exactly one point; it returns
the first point twice, a list of length two. -/
theorem flat_series_cex :
    visibleMinMaxPoints flatSeries = [flatPoint, flatPoint] ∧
      (visibleMinMaxPoints flatSeries).length ≠ 1 := by decide

/-- C4 amended: for every flat series (at least one defined value and
every defined value equal), both the minimum and the maximum role
resolve to the same first-occurrence point, and the extrema operation
returns that single point twice — a two-element list holding two copies
of it, rather than one deduplicated point. -/
theorem flat_series_amended (data : List AnnotatedPoint) (v : ℚ)
    (hne : definedVals data ≠ [])
    (hall : ∀ p ∈ data, toNum p.actual = none ∨ p.actual = JVal.jnum v) :
    ∃ p, minPoint data = some p ∧ maxPoint data = some p ∧
      visibleMinMaxPoints data = [p, p] ∧
      (data.find? fun q => q.actual == JVal.jnum v) = some p := by
  have hallv : ∀ y ∈ definedVals data, y = v := by
    intro y hy
    rcases definedVals_mem hy with ⟨p, hp, hv⟩
    rcases hall p hp with hnone | heq
    · rw [hv] at hnone; simp [toNum] at hnone
    · rw [hv] at heq
      exact (JVal.jnum.injEq _ _).mp heq
  have hmin : chartMinValue data = some v := listMin_all_eq hne hallv
  have hmax : chartMaxValue data = some v := listMax_all_eq hne hallv
  obtain ⟨hmem, _⟩ := listMin_spec hmin
  rcases find?_actual_first hmem with ⟨p, as, bs, hfind, hsplit, hval, hprev⟩
  refine ⟨p, ?_, ?_, ?_, hfind⟩
  · rw [minPoint, hmin]; exact hfind
  · rw [maxPoint, hmax]; exact hfind
  · simp [visibleMinMaxPoints, minPoint, maxPoint, hmin, hmax, hfind]

/-- Witness for the amended C4 at the flat three-point series of value
50: both roles resolve to the first point and the result holds it
twice. -/
theorem flat_series_amended_witness :
    minPoint flatSeries = some flatPoint ∧ maxPoint flatSeries = some flatPoint ∧
      visibleMinMaxPoints flatSeries = [flatPoint, flatPoint] := by
  obtain ⟨p, h1, h2, h3, h4⟩ := flat_series_amended flatSeries 50 (by decide) (by decide)
  have h5 : (flatSeries.find? fun q => q.actual == JVal.jnum 50) = some flatPoint := by
    decide
  rw [h5] at h4
  have hp : p = flatPoint := by
    injection h4.symm
  subst hp
  exact ⟨h1, h2, h3⟩

/-! ### Claim theorems: projection -/

/-- The first raw reading of the end-to-end scenario. -/
def readingA0 : Reading :=
  { time := "t0"
    values := fun k => if k = "metal_temperature" then JVal.jnum 705 else JVal.undef
    is_violation := JVal.jbool true }

/-- The raw reading sequence of the end-to-end scenario. -/
def rawScenarioA : List Reading :=
  [ readingA0,
    { time := "t1"
      values := fun k => if k = "metal_temperature" then JVal.jnum 715 else JVal.undef
      is_violation := JVal.jbool false },
    { time := "t2"
      values := fun k => if k = "metal_temperature" then JVal.jnum 725 else JVal.undef
      is_violation := JVal.jbool false } ]

/-- C5: both projections emit exactly one output point per input
reading, preserving count and order: the output length equals the
input length, and the output point at every index carries the same
timestamp as the input reading at that index. -/
theorem processedChartData_length_time (chartData : List Reading) (sp : String) :
    (processedChartData chartData sp).length = chartData.length ∧
    (processedChartDataApp chartData sp).length = chartData.length ∧
    (∀ i, ∀ h1 : i < (processedChartData chartData sp).length,
      ∀ h2 : i < chartData.length,
      ((processedChartData chartData sp).get ⟨i, h1⟩).time =
        (chartData.get ⟨i, h2⟩).time) ∧
    (∀ i, ∀ h1 : i < (processedChartDataApp chartData sp).length,
      ∀ h2 : i < chartData.length,
      ((processedChartDataApp chartData sp).get ⟨i, h1⟩).time =
        (chartData.get ⟨i, h2⟩).time) := by
  by_cases hlen : chartData.length = 0
  · have : chartData = [] := List.length_eq_zero.mp hlen
    subst this
    refine ⟨rfl, rfl, ?_, ?_⟩ <;> intro i h1 h2 <;> exact absurd h2 (by simp)
  · refine ⟨?_, ?_, ?_, ?_⟩
    · simp [processedChartData, hlen]
    · simp [processedChartDataApp]
    · intro i h1 h2
      simp [processedChartData, hlen]
    · intro i h1 h2
      simp [processedChartDataApp]

/-- Witness for C5 at the concrete scenario: three readings project to
three points and the first timestamps agree. -/
theorem processedChartData_length_time_witness :
    (processedChartData rawScenarioA "metal_temperature").length = rawScenarioA.length ∧
      ((processedChartData rawScenarioA "metal_temperature").get ⟨0, by decide⟩).time =
        (rawScenarioA.get ⟨0, by decide⟩).time :=
  ⟨(processedChartData_length_time rawScenarioA "metal_temperature").1,
    (processedChartData_length_time rawScenarioA "metal_temperature").2.2.1 0
      (by decide) (by decide)⟩

/-- C6: each projected point's value is exactly the source reading's
value under the selected parameter key; in particular the output value
is a defined number precisely when the source value is, and an absent
source value is never replaced by a fabricated number. -/
theorem processedChartData_value_faithful (chartData : List Reading) (sp : String)
    (i : ℕ) (h1 : i < (processedChartData chartData sp).length)
    (h2 : i < chartData.length) :
    ((processedChartData chartData sp).get ⟨i, h1⟩).actual =
      (chartData.get ⟨i, h2⟩).values sp ∧
    ((∃ q, ((processedChartData chartData sp).get ⟨i, h1⟩).actual = JVal.jnum q) ↔
      (∃ q, (chartData.get ⟨i, h2⟩).values sp = JVal.jnum q)) := by
  have hlen : ¬chartData.length = 0 := by
    intro h
    rw [List.length_eq_zero.mp h] at h2
    exact absurd h2 (by simp)
  have hmain :
      ((processedChartData chartData sp).get ⟨i, h1⟩).actual =
        (chartData.get ⟨i, h2⟩).values sp := by
    simp [processedChartData, hlen]
  exact ⟨hmain, by rw [hmain]⟩

/-- Witness for C6 at the concrete scenario: the projected first point
carries exactly the source's metal-temperature value 705. -/
theorem processedChartData_value_faithful_witness :
    ((processedChartData rawScenarioA "metal_temperature").get ⟨0, by decide⟩).actual =
        (rawScenarioA.get ⟨0, by decide⟩).values "metal_temperature" ∧
      ((∃ q, ((processedChartData rawScenarioA "metal_temperature").get
          ⟨0, by decide⟩).actual = JVal.jnum q) ↔
        (∃ q, (rawScenarioA.get ⟨0, by decide⟩).values "metal_temperature" =
          JVal.jnum q)) :=
  processedChartData_value_faithful rawScenarioA "metal_temperature" 0
    (by decide) (by decide)

/-- A reading whose violation flag is the truthy number one. -/
def readingTruthyNum : Reading :=
  { time := "t0", values := fun _ => JVal.undef, is_violation := JVal.jnum 1 }

/-- C10 counterexample: a source reading whose violation flag is the
truthy number one projects to a point whose violation flag is still the
number one, which is not a boolean. -/
theorem violation_flag_cex :
    (processedChartData [readingTruthyNum] "metal_temperature").map
        (fun p => p.is_violation) = [JVal.jnum 1] ∧
      JVal.jnum 1 ≠ JVal.jbool true ∧ JVal.jnum 1 ≠ JVal.jbool false := by
  decide

/-- C10 amended: each projected point's violation flag is the source
flag itself when the source flag is truthy and the boolean false
otherwise; consequently the flag is the boolean false whenever the
source flag is missing, null, or otherwise falsy, and it equals the
source's boolean whenever the source flag is a boolean — only a truthy
non-boolean source flag is passed through unchanged as a non-boolean. -/
theorem violation_flag_amended (chartData : List Reading) (sp : String)
    (i : ℕ) (h1 : i < (processedChartData chartData sp).length)
    (h2 : i < chartData.length) :
    ((processedChartData chartData sp).get ⟨i, h1⟩).is_violation =
      (if truthy (chartData.get ⟨i, h2⟩).is_violation = true
       then (chartData.get ⟨i, h2⟩).is_violation else JVal.jbool false) ∧
    (truthy (chartData.get ⟨i, h2⟩).is_violation = false →
      ((processedChartData chartData sp).get ⟨i, h1⟩).is_violation =
        JVal.jbool false) ∧
    (∀ b : Bool, (chartData.get ⟨i, h2⟩).is_violation = JVal.jbool b →
      ((processedChartData chartData sp).get ⟨i, h1⟩).is_violation =
        JVal.jbool b) := by
  have hlen : ¬chartData.length = 0 := by
    intro h
    rw [List.length_eq_zero.mp h] at h2
    exact absurd h2 (by simp)
  have hmain :
      ((processedChartData chartData sp).get ⟨i, h1⟩).is_violation =
        jsOr (chartData.get ⟨i, h2⟩).is_violation (JVal.jbool false) := by
    simp [processedChartData, hlen]
  refine ⟨?_, ?_, ?_⟩
  · rw [hmain, jsOr]
  · intro hfalsy
    rw [hmain, jsOr, hfalsy]
    simp
  · intro b hb
    rw [hmain, jsOr, hb]
    cases b <;> simp [truthy]

/-- Witness for the amended C10: a boolean-true source flag projects to
the boolean true. -/
theorem violation_flag_amended_witness :
    ((processedChartData rawScenarioA "metal_temperature").get
        ⟨0, by decide⟩).is_violation = JVal.jbool true :=
  (violation_flag_amended rawScenarioA "metal_temperature" 0
      (by decide) (by decide)).2.2 true rfl

/-! ### Claim theorems: threshold store -/

/-- C7: when the integer parse of the input fails, the threshold update
is a no-op: the state is unchanged, so a subsequent get for every
parameter returns exactly the pair it returned before the call, and no
error is raised (the operation is a total function). -/
theorem updateThreshold_parse_failure_noop (st : DashState) (side s : String)
    (hs : parseIntJS s = none) :
    updateThreshold st side s = st ∧
    ∀ q, getCurrentThreshold (setSelectedParameter (updateThreshold st side s) q) =
      getCurrentThreshold (setSelectedParameter st q) := by
  have h : updateThreshold st side s = st := by
    unfold updateThreshold
    rw [hs]
  exact ⟨h, fun q => by rw [h]⟩

/-- Witness for C7: the non-numeric inputs "abc" and the empty string
fail to parse, and updating with them leaves the initial state
untouched. -/
theorem updateThreshold_parse_failure_noop_witness :
    parseIntJS "abc" = none ∧ parseIntJS "" = none ∧
      updateThreshold initialState "upper" "abc" = initialState ∧
      updateThreshold initialState "lower" "" = initialState :=
  ⟨by decide, by decide,
    (updateThreshold_parse_failure_noop initialState "upper" "abc" (by decide)).1,
    (updateThreshold_parse_failure_noop initialState "lower" "" (by decide)).1⟩

/-- C8 counterexample: at the concrete unrecognised identifier
"humidity" the get operation does not fail with an error: it is a total
function and returns a bound pair, namely the pair with both sides
undefined. -/
theorem getCurrentThreshold_unknown_cex :
    getCurrentThreshold (setSelectedParameter initialState "humidity") =
      { upper := none, lower := none } := by decide

/-- C8 amended: for every identifier that is not one of the five
recognised parameter values, the get operation returns the bound pair
with both sides undefined, rather than failing with an error. -/
theorem getCurrentThreshold_unknown (st : DashState) (id : String)
    (h : id ∉ recognizedParameters) :
    getCurrentThreshold (setSelectedParameter st id) =
      { upper := none, lower := none } := by
  simp only [recognizedParameters, List.mem_cons, List.mem_singleton, not_or] at h
  unfold getCurrentThreshold setSelectedParameter
  split <;> simp_all

/-- Witness for the amended C8 at the concrete identifier "humidity". -/
theorem getCurrentThreshold_unknown_witness :
    "humidity" ∉ recognizedParameters ∧
      getCurrentThreshold (setSelectedParameter initialState "humidity") =
        { upper := none, lower := none } :=
  ⟨by decide, getCurrentThreshold_unknown initialState "humidity" (by decide)⟩

/-- C9: a successfully parsed threshold update changes at most the one
(parameter, side) slot addressed: a subsequent get for every other
parameter returns the same pair as before, the opposite side of the
selected parameter's own pair is unchanged, and merely switching the
selected parameter never changes any stored pair. -/
theorem updateThreshold_frame (st : DashState) (type s : String) (n : Int)
    (hs : parseIntJS s = some n) :
    (∀ q, q ≠ st.selectedParameter →
      getCurrentThreshold (setSelectedParameter (updateThreshold st type s) q) =
        getCurrentThreshold (setSelectedParameter st q)) ∧
    (type = "upper" →
      (getCurrentThreshold (updateThreshold st type s)).lower =
        (getCurrentThreshold st).lower) ∧
    (type ≠ "upper" →
      (getCurrentThreshold (updateThreshold st type s)).upper =
        (getCurrentThreshold st).upper) ∧
    (∀ st' : DashState, ∀ p' q : String,
      getCurrentThreshold (setSelectedParameter (setSelectedParameter st' p') q) =
        getCurrentThreshold (setSelectedParameter st' q)) := by
  have hsel : (updateThreshold st type s).selectedParameter = st.selectedParameter := by
    unfold updateThreshold
    rw [hs]
    split
    · rfl
    · split <;> first | rfl | (split <;> rfl)
  refine ⟨?_, ?_, ?_, ?_⟩
  · intro q hq
    unfold updateThreshold
    rw [hs]
    dsimp only
    unfold getCurrentThreshold setSelectedParameter
    dsimp only
    split <;> (try split) <;> (try split) <;> simp_all
  · intro htype
    subst htype
    unfold updateThreshold
    rw [hs]
    dsimp only
    split <;> simp_all [getCurrentThreshold]
  · intro htype
    unfold updateThreshold
    rw [hs]
    dsimp only
    split <;> (try split) <;> simp_all [getCurrentThreshold]
  · intro st' p' q
    unfold getCurrentThreshold setSelectedParameter
    rfl

/-- Witness for C9: updating the upper metal-temperature bound to 735
leaves the tilting-speed pair and the metal-temperature lower bound
unchanged. -/
theorem updateThreshold_frame_witness :
    parseIntJS "735" = some 735 ∧
      ("tilting_speed" : String) ≠ initialState.selectedParameter ∧
      getCurrentThreshold (setSelectedParameter
          (updateThreshold initialState "upper" "735") "tilting_speed") =
        getCurrentThreshold (setSelectedParameter initialState "tilting_speed") ∧
      (getCurrentThreshold (updateThreshold initialState "upper" "735")).lower =
        (getCurrentThreshold initialState).lower :=
  ⟨by decide, by decide,
    (updateThreshold_frame initialState "upper" "735" 735 (by decide)).1
      "tilting_speed" (by decide),
    (updateThreshold_frame initialState "upper" "735" 735 (by decide)).2.1 rfl⟩

end SparkMinda
